import Mathlib

set_option maxHeartbeats 1000000

/-!
Shallow embedding of the `yood2/lockedin` streamlit dashboard:
the fake-session generator (`streamlit_dashboard/generate_fake_sessions.py`)
and the dashboard load / normalize / aggregate pipeline
(`streamlit_dashboard/app.py`).

Machine integers are `Nat`/`Int`; Python floats are idealized as `Rat`.
Library calls (`json.loads`, `datetime.fromisoformat`) that the source uses
are modelled either as parameters or by executable models whose behaviour on
every input actually evaluated in a theorem agrees with CPython's.
-/

/-- JSON values, as produced by `json.loads` on one log line. -/
inductive Json where
  | null : Json
  | boolean : Bool → Json
  | num : ℚ → Json
  | str : String → Json
  | arr : List Json → Json
  | obj : List (String × Json) → Json

/-- `isinstance(x, dict)` on a decoded JSON value. -/
def Json.isObj : Json → Bool
  | Json.obj _ => true
  | _ => false

mutual

/-- Structural (Python `==`) equality on JSON values. -/
def Json.beqJ : Json → Json → Bool
  | Json.null, Json.null => true
  | Json.boolean a, Json.boolean b => a == b
  | Json.num a, Json.num b => a == b
  | Json.str a, Json.str b => a == b
  | Json.arr xs, Json.arr ys => Json.beqJList xs ys
  | Json.obj xs, Json.obj ys => Json.beqJKV xs ys
  | _, _ => false

/-- Pointwise equality of JSON arrays. -/
def Json.beqJList : List Json → List Json → Bool
  | [], [] => true
  | x :: xs, y :: ys => Json.beqJ x y && Json.beqJList xs ys
  | _, _ => false

/-- Pointwise equality of JSON object entry lists. -/
def Json.beqJKV : List (String × Json) → List (String × Json) → Bool
  | [], [] => true
  | (k1, v1) :: xs, (k2, v2) :: ys => k1 == k2 && Json.beqJ v1 v2 && Json.beqJKV xs ys
  | _, _ => false

end

/-- A `datetime.datetime` value (naive, second precision: the generator
serializes with `timespec="seconds"`, so no microseconds appear). -/
structure PyDateTime where
  year : ℕ
  month : ℕ
  day : ℕ
  hour : ℕ
  minute : ℕ
  second : ℕ
deriving DecidableEq

/-- Gregorian leap-year test, as in `datetime`'s day validation. -/
def isLeapYear (y : ℕ) : Bool :=
  (y % 4 == 0 && y % 100 != 0) || y % 400 == 0

/-- Days in a month, as validated by the `datetime` constructor. -/
def daysInMonth (y m : ℕ) : ℕ :=
  if m = 2 then (if isLeapYear y then 29 else 28)
  else if m = 4 ∨ m = 6 ∨ m = 9 ∨ m = 11 then 30
  else 31

/-- The field ranges `datetime.datetime` enforces on construction. -/
def PyDateTime.valid (d : PyDateTime) : Prop :=
  1 ≤ d.year ∧ d.year ≤ 9999 ∧ 1 ≤ d.month ∧ d.month ≤ 12 ∧
  1 ≤ d.day ∧ d.day ≤ daysInMonth d.year d.month ∧
  d.hour ≤ 23 ∧ d.minute ≤ 59 ∧ d.second ≤ 59

instance (d : PyDateTime) : Decidable d.valid := by
  unfold PyDateTime.valid
  infer_instance

/-- The ASCII digit character for `n % 10` (`'0'` has code 48). -/
def digitChar (n : ℕ) : Char := Char.ofNat (48 + n % 10)

/-- Numeric value of an ASCII digit character. -/
def digitVal (c : Char) : ℕ := c.toNat - 48

/-- Is `c` an ASCII digit? -/
def isDigitC (c : Char) : Bool := 48 ≤ c.toNat && c.toNat ≤ 57

/-- `"%02d"` zero-padded rendering of `n ≤ 99`. -/
def pad2 (n : ℕ) : List Char := [digitChar (n / 10), digitChar n]

/-- `"%04d"` zero-padded rendering of `n ≤ 9999`. -/
def pad4 (n : ℕ) : List Char :=
  [digitChar (n / 1000), digitChar (n / 100), digitChar (n / 10), digitChar n]

/-- `datetime.isoformat(timespec="seconds")`: `YYYY-MM-DDTHH:MM:SS`
(default separator `'T'`, no offset on a naive datetime). -/
def isoformatL (d : PyDateTime) : List Char :=
  pad4 d.year ++ '-' :: pad2 d.month ++ '-' :: pad2 d.day ++
  'T' :: pad2 d.hour ++ ':' :: pad2 d.minute ++ ':' :: pad2 d.second

/-- String form of `isoformatL`. -/
def isoformatStr (d : PyDateTime) : String := String.mk (isoformatL d)

/-- Numeric value of two digit characters. -/
def twoDigits (a b : Char) : ℕ := digitVal a * 10 + digitVal b

/-- Numeric value of four digit characters. -/
def fourDigits (a b c e : Char) : ℕ :=
  digitVal a * 1000 + digitVal b * 100 + digitVal c * 10 + digitVal e

/-- The shape-and-range condition `fromisoformat` checks on a 19-character
input `y1 y2 y3 y4 c1 m1 m2 c2 a1 a2 ct h1 h2 c3 n1 n2 c4 s1 s2`. -/
def isoCond (y1 y2 y3 y4 c1 m1 m2 c2 a1 a2 ct h1 h2 c3 n1 n2 c4 s1 s2 : Char) : Prop :=
  (∀ c ∈ [y1, y2, y3, y4, m1, m2, a1, a2, h1, h2, n1, n2, s1, s2], isDigitC c = true) ∧
  c1 = '-' ∧ c2 = '-' ∧ ct = 'T' ∧ c3 = ':' ∧ c4 = ':' ∧
  1 ≤ fourDigits y1 y2 y3 y4 ∧
  1 ≤ twoDigits m1 m2 ∧ twoDigits m1 m2 ≤ 12 ∧
  1 ≤ twoDigits a1 a2 ∧
  twoDigits a1 a2 ≤ daysInMonth (fourDigits y1 y2 y3 y4) (twoDigits m1 m2) ∧
  twoDigits h1 h2 ≤ 23 ∧ twoDigits n1 n2 ≤ 59 ∧ twoDigits s1 s2 ≤ 59

instance (y1 y2 y3 y4 c1 m1 m2 c2 a1 a2 ct h1 h2 c3 n1 n2 c4 s1 s2 : Char) :
    Decidable (isoCond y1 y2 y3 y4 c1 m1 m2 c2 a1 a2 ct h1 h2 c3 n1 n2 c4 s1 s2) := by
  unfold isoCond
  infer_instance

/-- Model of `datetime.fromisoformat` restricted to the canonical
`YYYY-MM-DDTHH:MM:SS` layout (exactly the layout `isoformat` emits, which is
the only shape this development ever parses successfully); every other input
is rejected, as CPython rejects every concrete non-canonical string appearing
in this file. -/
def fromisoformatL (cs : List Char) : Option PyDateTime :=
  match cs with
  | [y1, y2, y3, y4, c1, m1, m2, c2, a1, a2, ct, h1, h2, c3, n1, n2, c4, s1, s2] =>
    if isoCond y1 y2 y3 y4 c1 m1 m2 c2 a1 a2 ct h1 h2 c3 n1 n2 c4 s1 s2 then
      some ⟨fourDigits y1 y2 y3 y4, twoDigits m1 m2, twoDigits a1 a2,
            twoDigits h1 h2, twoDigits n1 n2, twoDigits s1 s2⟩
    else none
  | _ => none

/-- `fromisoformat` on a `String`. -/
def fromisoformatModel (s : String) : Option PyDateTime := fromisoformatL s.data

theorem digit_facts :
    ∀ m, m < 10 → digitVal (Char.ofNat (48 + m)) = m ∧
      isDigitC (Char.ofNat (48 + m)) = true ∧ Char.ofNat (48 + m) ≠ 'Z' := by
  decide

theorem digitVal_digitChar (k : ℕ) : digitVal (digitChar k) = k % 10 :=
  (digit_facts (k % 10) (Nat.mod_lt _ (by omega))).1

theorem isDigitC_digitChar (k : ℕ) : isDigitC (digitChar k) = true :=
  (digit_facts (k % 10) (Nat.mod_lt _ (by omega))).2.1

theorem digitChar_ne_Z (k : ℕ) : digitChar k ≠ 'Z' :=
  (digit_facts (k % 10) (Nat.mod_lt _ (by omega))).2.2

theorem daysInMonth_le (y m : ℕ) : daysInMonth y m ≤ 31 := by
  unfold daysInMonth
  split
  · split <;> omega
  · split <;> omega

theorem twoDigits_pad (n : ℕ) (hn : n ≤ 99) :
    twoDigits (digitChar (n / 10)) (digitChar n) = n := by
  simp only [twoDigits, digitVal_digitChar]
  omega

theorem fourDigits_pad (n : ℕ) (hn : n ≤ 9999) :
    fourDigits (digitChar (n / 1000)) (digitChar (n / 100)) (digitChar (n / 10)) (digitChar n) = n := by
  simp only [fourDigits, digitVal_digitChar]
  have h2 : n / 10 / 10 = n / 100 := Nat.div_div_eq_div_mul n 10 10
  have h3 : n / 100 / 10 = n / 1000 := Nat.div_div_eq_div_mul n 100 10
  omega

theorem isoCond_of_valid (d : PyDateTime) (hd : d.valid) :
    isoCond (digitChar (d.year / 1000)) (digitChar (d.year / 100)) (digitChar (d.year / 10))
      (digitChar d.year) '-' (digitChar (d.month / 10)) (digitChar d.month) '-'
      (digitChar (d.day / 10)) (digitChar d.day) 'T' (digitChar (d.hour / 10))
      (digitChar d.hour) ':' (digitChar (d.minute / 10)) (digitChar d.minute) ':'
      (digitChar (d.second / 10)) (digitChar d.second) := by
  obtain ⟨hy1, hy2, hm1, hm2, hd1, hd2, hh, hmi, hs⟩ := hd
  have hdm := daysInMonth_le d.year d.month
  have ey := fourDigits_pad d.year (by omega)
  have em := twoDigits_pad d.month (by omega)
  have ed := twoDigits_pad d.day (by omega)
  have eh := twoDigits_pad d.hour (by omega)
  have en := twoDigits_pad d.minute (by omega)
  have es := twoDigits_pad d.second (by omega)
  refine ⟨?_, rfl, rfl, rfl, rfl, rfl, ?_, ?_, ?_, ?_, ?_, ?_, ?_, ?_⟩
  · intro c hc
    simp only [List.mem_cons, List.not_mem_nil, or_false] at hc
    rcases hc with h | h | h | h | h | h | h | h | h | h | h | h | h | h <;>
      (subst h; exact isDigitC_digitChar _)
  · rw [ey]; omega
  · rw [em]; omega
  · rw [em]; omega
  · rw [ed]; omega
  · rw [ed, em, ey]; exact hd2
  · rw [eh]; omega
  · rw [en]; omega
  · rw [es]; omega

/-- Parsing inverts printing on every valid datetime. -/
theorem fromisoformat_isoformat (d : PyDateTime) (hd : d.valid) :
    fromisoformatL (isoformatL d) = some d := by
  have hcond := isoCond_of_valid d hd
  obtain ⟨hy1, hy2, hm1, hm2, hd1, hd2, hh, hmi, hs⟩ := hd
  have hdm := daysInMonth_le d.year d.month
  have ey := fourDigits_pad d.year (by omega)
  have em := twoDigits_pad d.month (by omega)
  have ed := twoDigits_pad d.day (by omega)
  have eh := twoDigits_pad d.hour (by omega)
  have en := twoDigits_pad d.minute (by omega)
  have es := twoDigits_pad d.second (by omega)
  simp only [isoformatL, pad4, pad2, List.cons_append, List.nil_append]
  simp only [fromisoformatL, if_pos hcond, ey, em, ed, eh, en, es]

/-- No character of an isoformat string is `'Z'`. -/
theorem isoformat_no_Z (d : PyDateTime) : ∀ c ∈ isoformatL d, c ≠ 'Z' := by
  intro c hc
  simp only [isoformatL, pad4, pad2, List.cons_append, List.nil_append,
    List.mem_cons, List.not_mem_nil, or_false] at hc
  rcases hc with h | h | h | h | h | h | h | h | h | h | h | h | h | h | h | h | h | h | h <;>
    subst h <;> first
    | exact digitChar_ne_Z _
    | decide

/-! ## The generator: `generate_fake_sessions.py` -/

/-- The fixed distraction catalog `DISTRACTIONS`. -/
def DISTRACTIONS : List String :=
  ["eyes closed", "look away", "watch phone", "chat", "music", "stretch"]

/-- The fixed app/activity catalog `APPS`. -/
def APPS : List (String × List String) :=
  [("VS Code", ["edit code", "read file", "debug"]),
   ("Chrome", ["YouTube", "Docs", "Search"]),
   ("Terminal", ["run build", "git status", "install deps"]),
   ("Slack", ["reply", "read thread"]),
   ("Figma", ["browse designs", "inspect"])]

/-- `random.randint(a, b)`: the draw is modelled by reducing an arbitrary
choice seed into the inclusive range `[a, b]`; every value of the range is
reachable and (for `a ≤ b`) no value outside it is. -/
def randint (a b choice : ℕ) : ℕ := a + choice % (b + 1 - a)

theorem randint_le (a b c : ℕ) (h : a ≤ b) : a ≤ randint a b c ∧ randint a b c ≤ b := by
  unfold randint
  have hpos : 0 < b + 1 - a := by omega
  have := Nat.mod_lt c hpos
  omega

/-- `random.choice(seq)`: an arbitrary element of the sequence, modelled by
indexing with a choice seed (with a default for the empty list, which never
occurs in the source's fixed catalogs). -/
def pyChoice (l : List α) (dflt : α) (c : ℕ) : α := l.getD (c % l.length) dflt

/-- Python `int()` applied to a float: truncation toward zero. -/
def pyIntTrunc (q : ℚ) : ℤ := if 0 ≤ q then ⌊q⌋ else ⌈q⌉

/-- Python `round(x, 3)`: round half to even at the third decimal place
(idealized over `ℚ`). -/
def pyRound3 (q : ℚ) : ℚ :=
  (if Int.fract (q * 1000) < 1 / 2 then ⌊q * 1000⌋
   else if 1 / 2 < Int.fract (q * 1000) then ⌊q * 1000⌋ + 1
   else if ⌊q * 1000⌋ % 2 = 0 then ⌊q * 1000⌋ else ⌊q * 1000⌋ + 1 : ℤ) / 1000

/-- One generated record, with the fields `generate_session` returns. -/
structure GenRecord where
  sessionStart : String
  sessionEnd : String
  totalDurationSec : ℕ
  totalUnfocusedSec : ℤ
  focusR3 : ℚ
  longestUnfocusedStreakSec : ℤ
  mostCommonDistraction : String × ℕ
  mostUsedAppActivity : String × String × ℕ

/-- `generate_session()`. The datetime arithmetic (`datetime.now()` minus a
random `timedelta`, and `start + timedelta(seconds=total_sec)`) is abstracted
into the two datetime parameters `start_dt` and `end_dt`: Python's `datetime`
arithmetic always yields valid datetimes, and the random offsets make the
start effectively arbitrary. The draw of `random.uniform(0.05, 0.45)` is the
parameter `unfocusedFrac`; CPython guarantees it lies in `[0.05, 0.45]`.
All other draws are modelled through `randint`/`pyChoice` seeds. -/
def generate_session (start_dt end_dt : PyDateTime) (durC : ℕ) (unfocusedFrac : ℚ)
    (streakC appC actC distC occC appOccC : ℕ) : GenRecord :=
  let duration_min := randint 15 60 durC
  let total_sec := duration_min * 60
  let total_unfocused_sec := pyIntTrunc ((total_sec : ℚ) * unfocusedFrac)
  let longest_streak : ℤ :=
    if 0 < total_unfocused_sec then
      (randint 15 (min 600 (max 30 (total_unfocused_sec.toNat / 3))) streakC : ℤ)
    else 0
  let appPair := pyChoice APPS ("", []) appC
  let act := pyChoice appPair.2 "" actC
  let distraction := pyChoice DISTRACTIONS "" distC
  let occurrences := randint 1 8 occC
  { sessionStart := isoformatStr start_dt
    sessionEnd := isoformatStr end_dt
    totalDurationSec := total_sec
    totalUnfocusedSec := total_unfocused_sec
    focusR3 := pyRound3 (((total_sec : ℚ) - (total_unfocused_sec : ℚ)) / (total_sec : ℚ))
    longestUnfocusedStreakSec := longest_streak
    mostCommonDistraction := (distraction, occurrences)
    mostUsedAppActivity := (appPair.1, act, randint 2 12 appOccC) }

/-! ## The dashboard: `app.py` -/

/-- Is a log line blank? `not line.strip()` in the source: true iff every
character is whitespace. -/
def isBlank (line : String) : Bool := line.data.all (fun c => c.isWhitespace)

/-- The loading loop of `app.py` (lines 60-69): start from an empty record
list; skip blank lines; `json.loads` each other line (the parser is a
parameter modelling that library call), appending on success and silently
skipping on exception. -/
def loadRecords (jsonLoads : String → Option Json) (lines : List String) : List Json :=
  lines.foldl
    (fun recs line =>
      if isBlank line then recs
      else
        match jsonLoads line with
        | some j => recs ++ [j]
        | none => recs)
    []

/-- Python `s.replace("Z", "")`: remove every occurrence of `'Z'`,
scanning left to right. -/
def removeZL : List Char → List Char
  | [] => []
  | c :: cs => if c = 'Z' then removeZL cs else c :: removeZL cs

/-- `removeZL` on a `String`. -/
def pyReplaceZ (s : String) : String := String.mk (removeZL s.data)

/-- `to_dt` (`app.py` lines 77-81): `datetime.fromisoformat(x.replace("Z", ""))`
under `try/except`. The argument is `r.get(key)`: `none` models a missing key
(Python `None`); on any non-string (including `None` and JSON `null`, both
Python `None`) the `.replace` attribute access raises and the `except` returns
`None`. `parseIso` is the `datetime.fromisoformat` library call. -/
def to_dt (parseIso : String → Option PyDateTime) (x : Option Json) : Option PyDateTime :=
  match x with
  | some (Json.str s) => parseIso (pyReplaceZ s)
  | _ => none

/-- `r.get(key)` on a decoded JSON object's entry list. -/
def pyGet (r : List (String × Json)) (k : String) : Option Json := r.lookup k

/-- One record after the normalization loop (`app.py` lines 83-85): the raw
record plus the two derived datetime fields stored into it. -/
structure NormRecord where
  raw : List (String × Json)
  sessionStart_dt : Option PyDateTime
  sessionEnd_dt : Option PyDateTime

/-- The normalization loop over all loaded records (each modelled as a JSON
object's entry list, which is what the dashboard indexes into). -/
def normalizeRecords (parseIso : String → Option PyDateTime)
    (records : List (List (String × Json))) : List NormRecord :=
  records.map (fun r =>
    ⟨r, to_dt parseIso (pyGet r "sessionStart"), to_dt parseIso (pyGet r "sessionEnd")⟩)

/-- One DataFrame row, with the columns the aggregates touch. Numeric columns
are `ℚ` (pandas holds them as numbers); `sessionEnd_dt` is the derived
datetime column; the two breakdown columns hold the raw decoded values
(`none` models a missing field, pandas `NaN`). -/
structure Row where
  totalDurationSec : ℚ
  totalUnfocusedSec : ℚ
  longestUnfocusedStreakSec : ℚ
  sessionEnd_dt : Option PyDateTime
  mostCommonDistraction : Option Json
  mostUsedAppActivity : Option Json

/-- `len(df)` (total sessions card). -/
def total_sessions (rows : List Row) : ℕ := rows.length

/-- `df["totalDurationSec"].sum()`. -/
def sumDuration (rows : List Row) : ℚ := (rows.map Row.totalDurationSec).sum

/-- `df["totalUnfocusedSec"].sum()`. -/
def sumUnfocused (rows : List Row) : ℚ := (rows.map Row.totalUnfocusedSec).sum

/-- `total_hours` (`app.py` line 97). -/
def total_hours (rows : List Row) : ℚ := sumDuration rows / 3600

/-- `avg_focus` (`app.py` lines 100-101): guarded average focus share. -/
def avg_focus (rows : List Row) : ℚ :=
  if 0 < sumDuration rows then 1 - sumUnfocused rows / sumDuration rows else 1

/-- `df["longestUnfocusedStreakSec"].max()` (`none` on an empty frame,
where pandas yields NaN; the app stops earlier on empty data). -/
def longest_agg (rows : List Row) : Option ℚ :=
  rows.foldl
    (fun acc r =>
      some (match acc with
            | none => Row.longestUnfocusedStreakSec r
            | some q => max q (Row.longestUnfocusedStreakSec r)))
    none

/-- Chronological sort key for the derived datetime column. -/
def dtKey (d : PyDateTime) : ℕ :=
  ((((d.year * 13 + d.month) * 32 + d.day) * 24 + d.hour) * 60 + d.minute) * 60 + d.second

/-- Sort key lifted to the column (never compared at `none`: the frame is
filtered first). -/
def dtKeyOpt : Option PyDateTime → ℕ
  | none => 0
  | some d => dtKey d

/-- Row comparison used for `sort_values("sessionEnd_dt")`. -/
def rowLe (a b : Row) : Bool := dtKeyOpt (Row.sessionEnd_dt a) ≤ dtKeyOpt (Row.sessionEnd_dt b)

/-- `df.dropna(subset=["sessionEnd_dt"]).sort_values("sessionEnd_dt")`
(`app.py` line 111). -/
def df_ts (rows : List Row) : List Row :=
  (rows.filter (fun r => (Row.sessionEnd_dt r).isSome)).mergeSort rowLe

/-- The per-row focus percentage column (`app.py` line 112), unguarded. -/
def focusPct (r : Row) : ℚ :=
  (1 - Row.totalUnfocusedSec r / Row.totalDurationSec r) * 100

/-- The time-series frame with its `focusPct` column assigned. -/
def df_ts_view (rows : List Row) : List (Row × ℚ) :=
  (df_ts rows).map (fun r => (r, focusPct r))

/-- The distraction extraction (`app.py` line 119):
`df["mostCommonDistraction"].dropna().apply(lambda x: x.get("activity") if
isinstance(x, dict) else None)` followed by `value_counts`' dropping of
`None`. `none` out means: the row contributes nothing to the counts. -/
def extractDistraction (x : Option Json) : Option Json :=
  match x with
  | none => none
  | some Json.null => none
  | some (Json.obj kvs) =>
    match kvs.lookup "activity" with
    | some Json.null => none
    | some v => some v
    | none => none
  | some _ => none

/-- The multiset of values `value_counts` tallies for the distraction chart. -/
def distractionValues (rows : List Row) : List Json :=
  rows.filterMap (fun r => extractDistraction (Row.mostCommonDistraction r))

/-- Occurrence count of one value in the tallied series (Python `==`). -/
def countJ (v : Json) (vs : List Json) : ℕ := (vs.filter (fun w => Json.beqJ v w)).length

/-- First-occurrence list of distinct values of the series. -/
def dedupJ : List Json → List Json
  | [] => []
  | v :: vs => if (dedupJ vs).any (fun w => Json.beqJ v w) then dedupJ vs else v :: dedupJ vs

/-- `series.value_counts()`: per-distinct-value occurrence counts, sorted by
descending count. -/
def value_counts (vs : List Json) : List (Json × ℕ) :=
  ((dedupJ vs).map (fun v => (v, countJ v vs))).mergeSort (fun a b => b.2 ≤ a.2)

/-- `.head(8)` of the counts: the 8 most frequent values. -/
def top8 (vs : List Json) : List (Json × ℕ) := (value_counts vs).take 8

/-- `main(num_sessions)` (`generate_fake_sessions.py` lines 60-76), with the
output file modelled as its list of lines (`none` = file absent). The body:
unlink the file if it exists, open in append mode (creating it), then write
one serialized record (`json.dumps(..) + "\n"`, a single line since `dumps`
escapes control characters) per session. `lineFor i` is the serialized form
of the `i`-th generated record. Returns the final file content. -/
def pyMain (prevFile : Option (List String)) (lineFor : ℕ → String)
    (num_sessions : ℕ) : List String :=
  let afterUnlink : Option (List String) := if prevFile.isSome then none else prevFile
  let content := afterUnlink.getD []
  (List.range num_sessions).foldl (fun acc i => acc ++ [lineFor i]) content

theorem foldl_write_lines (f : ℕ → String) (l : List ℕ) :
    ∀ acc : List String, l.foldl (fun a i => a ++ [f i]) acc = acc ++ l.map f := by
  induction l with
  | nil => intro acc; simp
  | cons x xs ih => intro acc; simp [ih]

/-- Bounds on the `randint` upper limit for the longest streak. -/
theorem streak_hi_bounds (n : ℕ) (hn : 45 ≤ n) :
    15 ≤ min 600 (max 30 (n / 3)) ∧ min 600 (max 30 (n / 3)) ≤ n := by
  omega

/-- The truncated unfocused-seconds value lies in `[45, total]` whenever the
duration is a generator duration and the fraction a generator fraction. -/
theorem unfocused_bounds (t : ℕ) (ht : 900 ≤ t) (ht2 : t ≤ 3600) (uf : ℚ)
    (h1 : 1 / 20 ≤ uf) (h2 : uf ≤ 9 / 20) :
    (45 : ℤ) ≤ pyIntTrunc ((t : ℚ) * uf) ∧ pyIntTrunc ((t : ℚ) * uf) ≤ (t : ℤ) := by
  have hq : (0 : ℚ) ≤ (t : ℚ) * uf := by positivity
  unfold pyIntTrunc
  rw [if_pos hq]
  constructor
  · rw [Int.le_floor]
    have h900 : (900 : ℚ) ≤ (t : ℚ) := by exact_mod_cast ht
    have hm : (900 : ℚ) * (1 / 20) ≤ (t : ℚ) * uf :=
      mul_le_mul h900 h1 (by norm_num) (by positivity)
    calc ((45 : ℤ) : ℚ) = (900 : ℚ) * (1 / 20) := by norm_num
    _ ≤ (t : ℚ) * uf := hm
  · have hup : (t : ℚ) * uf ≤ (t : ℚ) :=
      mul_le_of_le_one_right (by positivity) (by linarith)
    calc ⌊(t : ℚ) * uf⌋ ≤ ⌊(t : ℚ)⌋ := Int.floor_le_floor hup
    _ = (t : ℤ) := Int.floor_natCast t

/-- C1: for every generated record, with any duration drawn from 15-60
minutes and any unfocused fraction in `[0.05, 0.45]`, the chain
`0 ≤ longestUnfocusedStreakSec ≤ totalUnfocusedSec ≤ totalDurationSec`
holds; the streak draw never exceeds `totalUnfocusedSec`. -/
theorem c1_streak_chain (start_dt end_dt : PyDateTime) (durC : ℕ) (uf : ℚ)
    (streakC appC actC distC occC appOccC : ℕ)
    (h1 : 1 / 20 ≤ uf) (h2 : uf ≤ 9 / 20) :
    0 ≤ (generate_session start_dt end_dt durC uf streakC appC actC distC occC appOccC).longestUnfocusedStreakSec ∧
    (generate_session start_dt end_dt durC uf streakC appC actC distC occC appOccC).longestUnfocusedStreakSec ≤
      (generate_session start_dt end_dt durC uf streakC appC actC distC occC appOccC).totalUnfocusedSec ∧
    (generate_session start_dt end_dt durC uf streakC appC actC distC occC appOccC).totalUnfocusedSec ≤
      ((generate_session start_dt end_dt durC uf streakC appC actC distC occC appOccC).totalDurationSec : ℤ) := by
  have hm := randint_le 15 60 durC (by norm_num)
  have ht1 : 900 ≤ randint 15 60 durC * 60 := by omega
  have ht2 : randint 15 60 durC * 60 ≤ 3600 := by omega
  have hu := unfocused_bounds (randint 15 60 durC * 60) ht1 ht2 uf h1 h2
  simp only [generate_session]
  set u := pyIntTrunc (((randint 15 60 durC * 60 : ℕ) : ℚ) * uf) with hu_def
  have hupos : 0 < u := by omega
  rw [if_pos hupos]
  have hn : 45 ≤ u.toNat := by omega
  have hhi := streak_hi_bounds u.toNat hn
  have hs := randint_le 15 (min 600 (max 30 (u.toNat / 3))) streakC (by omega)
  refine ⟨by omega, ?_, hu.2⟩
  have : randint 15 (min 600 (max 30 (u.toNat / 3))) streakC ≤ u.toNat := by omega
  omega

/-- A concrete valid datetime used to instantiate theorems. -/
def d0 : PyDateTime := ⟨2024, 1, 1, 0, 0, 0⟩

theorem d0_valid : d0.valid := by decide

/-- Witness for C1 at a concrete input. -/
theorem c1_streak_chain_witness :
    (1 / 20 : ℚ) ≤ 1 / 10 ∧ (1 / 10 : ℚ) ≤ 9 / 20 ∧
    (0 ≤ (generate_session d0 d0 0 (1 / 10) 0 0 0 0 0 0).longestUnfocusedStreakSec ∧
     (generate_session d0 d0 0 (1 / 10) 0 0 0 0 0 0).longestUnfocusedStreakSec ≤
       (generate_session d0 d0 0 (1 / 10) 0 0 0 0 0 0).totalUnfocusedSec ∧
     (generate_session d0 d0 0 (1 / 10) 0 0 0 0 0 0).totalUnfocusedSec ≤
       ((generate_session d0 d0 0 (1 / 10) 0 0 0 0 0 0).totalDurationSec : ℤ)) :=
  ⟨by norm_num, by norm_num,
   c1_streak_chain d0 d0 0 (1 / 10) 0 0 0 0 0 0 (by norm_num) (by norm_num)⟩

/-- C2: the average-focus aggregate is `1 - sum(totalUnfocusedSec) /
sum(totalDurationSec)` when the denominator is positive, `1.0` when it is
zero, and on the two §8 example records it equals `1 - 1800/5400`, which is
`0.6667` to four places. -/
theorem c2_avg_focus :
    (∀ rows : List Row, 0 < sumDuration rows →
        avg_focus rows = 1 - sumUnfocused rows / sumDuration rows) ∧
    (∀ rows : List Row, sumDuration rows = 0 → avg_focus rows = 1) ∧
    avg_focus [⟨3600, 900, 0, none, none, none⟩, ⟨1800, 900, 0, none, none, none⟩] =
      1 - 1800 / 5400 ∧
    ⌊avg_focus [⟨3600, 900, 0, none, none, none⟩, ⟨1800, 900, 0, none, none, none⟩]
        * 10000 + 1 / 2⌋ = 6667 := by
  refine ⟨?_, ?_, ?_, ?_⟩
  · intro rows h
    unfold avg_focus
    rw [if_pos h]
  · intro rows h
    unfold avg_focus
    rw [h]
    norm_num
  · norm_num [avg_focus, sumDuration, sumUnfocused]
  · have h : avg_focus [⟨3600, 900, 0, none, none, none⟩, ⟨1800, 900, 0, none, none, none⟩] =
        1 - 1800 / 5400 := by
      norm_num [avg_focus, sumDuration, sumUnfocused]
    rw [h]
    rw [show ((1 : ℚ) - 1800 / 5400) * 10000 + 1 / 2 = 40003 / 6 by norm_num]
    rw [Int.floor_eq_iff]
    norm_num

/-- Witness for C2 at a concrete input. -/
theorem c2_avg_focus_witness :
    0 < sumDuration [⟨3600, 900, 0, none, none, none⟩] ∧
    avg_focus [⟨3600, 900, 0, none, none, none⟩] =
      1 - sumUnfocused [⟨3600, 900, 0, none, none, none⟩] /
        sumDuration [⟨3600, 900, 0, none, none, none⟩] :=
  ⟨by norm_num [sumDuration],
   c2_avg_focus.1 [⟨3600, 900, 0, none, none, none⟩] (by norm_num [sumDuration])⟩

/-- C3: `main(N)` leaves the output file holding exactly the `N` serialized
records, one per line, regardless of any previous content; running `main(5)`
and then `main(3)` leaves exactly 3 lines. -/
theorem c3_main_overwrite :
    (∀ (prev : Option (List String)) (f : ℕ → String) (n : ℕ),
        pyMain prev f n = (List.range n).map f) ∧
    (∀ (prev : Option (List String)) (f : ℕ → String) (n : ℕ),
        (pyMain prev f n).length = n) ∧
    (∀ f g : ℕ → String, (pyMain (some (pyMain none f 5)) g 3).length = 3) := by
  have key : ∀ (prev : Option (List String)) (f : ℕ → String) (n : ℕ),
      pyMain prev f n = (List.range n).map f := by
    intro prev f n
    unfold pyMain
    cases prev <;> simp [foldl_write_lines]
  refine ⟨key, ?_, ?_⟩
  · intro prev f n
    rw [key]
    simp
  · intro f g
    rw [key]
    simp

/-- The four well-formed lines and one malformed line of the §8 loading
example (braces written with hex escapes). -/
def exampleLines : List String :=
  ["\x7b\"totalDurationSec\": 900\x7d",
   "\x7b\"totalDurationSec\": 1200\x7d",
   "\x7boops",
   "\x7b\"totalDurationSec\": 1500\x7d",
   "\x7b\"totalDurationSec\": 1800\x7d"]

/-- `json.loads` evaluated on the five example lines: CPython decodes the
four object lines and raises `JSONDecodeError` on the malformed one. -/
def exampleParse (s : String) : Option Json :=
  if s = "\x7b\"totalDurationSec\": 900\x7d" then
    some (Json.obj [("totalDurationSec", Json.num 900)])
  else if s = "\x7b\"totalDurationSec\": 1200\x7d" then
    some (Json.obj [("totalDurationSec", Json.num 1200)])
  else if s = "\x7b\"totalDurationSec\": 1500\x7d" then
    some (Json.obj [("totalDurationSec", Json.num 1500)])
  else if s = "\x7b\"totalDurationSec\": 1800\x7d" then
    some (Json.obj [("totalDurationSec", Json.num 1800)])
  else none

theorem loadRecords_filterMap (jsonLoads : String → Option Json) (lines : List String) :
    ∀ acc : List Json,
      lines.foldl
        (fun recs line =>
          if isBlank line then recs
          else
            match jsonLoads line with
            | some j => recs ++ [j]
            | none => recs)
        acc =
      acc ++ lines.filterMap (fun line => if isBlank line then none else jsonLoads line) := by
  induction lines with
  | nil => intro acc; simp
  | cons x xs ih =>
    intro acc
    by_cases hb : isBlank x
    · simp [hb, ih]
    · cases hj : jsonLoads x <;> simp [hb, hj, ih]
  
/-- C4: loading yields exactly the parse results of the non-blank lines, in
file order (blank lines skipped, malformed lines silently discarded), and on
the §8 example file with 4 valid lines and one malformed line it yields
exactly 4 records. -/
theorem c4_load_tolerance :
    (∀ (jsonLoads : String → Option Json) (lines : List String),
        loadRecords jsonLoads lines =
          lines.filterMap (fun line => if isBlank line then none else jsonLoads line)) ∧
    (loadRecords exampleParse exampleLines).length = 4 := by
  constructor
  · intro jsonLoads lines
    unfold loadRecords
    rw [loadRecords_filterMap]
    simp
  · rfl

theorem removeZL_filter (l : List Char) : removeZL l = l.filter (fun c => c != 'Z') := by
  induction l with
  | nil => rfl
  | cons c cs ih =>
    by_cases h : c = 'Z'
    · simp [removeZL, h, ih]
    · simp [removeZL, h, ih]

theorem removeZL_eq_self (l : List Char) (h : ∀ c ∈ l, c ≠ 'Z') : removeZL l = l := by
  induction l with
  | nil => rfl
  | cons c cs ih =>
    rw [removeZL, if_neg (h c (by simp))]
    rw [ih (fun x hx => h x (by simp [hx]))]

/-- Modelled from the spec: "stripping a trailing `Z`" — remove one trailing
`Z` designator if present, leave the string unchanged otherwise. This is the
spec's description of the normalization, to be compared with the source's
`x.replace("Z", "")`. -/
def specStripTrailingZ (s : String) : String :=
  if s.data.getLast? = some 'Z' then String.mk s.data.dropLast else s

/-- C5 counterexample: on a record whose `sessionStart` is
`"2024-01-01TZ00:00:00"` (a `'Z'` in the middle), the code removes every
`'Z'` and parses successfully, deriving a non-null timestamp; stripping only
a trailing `'Z'` as the claim describes leaves an unparseable string, so the
claim's described derivation yields null. The claim is false at this record. -/
theorem c5_counterexample :
    to_dt fromisoformatModel
        (pyGet [("sessionStart", Json.str "2024-01-01TZ00:00:00")] "sessionStart") =
      some ⟨2024, 1, 1, 0, 0, 0⟩ ∧
    fromisoformatModel (specStripTrailingZ "2024-01-01TZ00:00:00") = none := by
  constructor
  · decide
  · decide

/-- C5 (amended): the normalization derives each timestamp field by removing
every occurrence of `'Z'` from the string (not only a trailing designator)
and parsing the result; whenever that parse fails the derived field is null,
and every record is kept. -/
theorem c5_normalize_replace_all :
    (∀ (parseIso : String → Option PyDateTime) (s : String),
        to_dt parseIso (some (Json.str s)) =
          parseIso (String.mk (s.data.filter (fun c => c != 'Z')))) ∧
    (∀ (parseIso : String → Option PyDateTime) (s : String),
        parseIso (pyReplaceZ s) = none → to_dt parseIso (some (Json.str s)) = none) ∧
    (∀ (parseIso : String → Option PyDateTime) (records : List (List (String × Json))),
        (normalizeRecords parseIso records).map NormRecord.raw = records) := by
  refine ⟨?_, ?_, ?_⟩
  · intro parseIso s
    rw [to_dt, pyReplaceZ, removeZL_filter]
  · intro parseIso s h
    rw [to_dt, h]
  · intro parseIso records
    unfold normalizeRecords
    rw [List.map_map]
    exact List.map_id'' (fun r => rfl) records

/-- C6: a record written by the generator has `sessionStart`/`sessionEnd`
isoformat strings containing no `'Z'`, so the dashboard's `to_dt` is a no-op
on the `Z`-stripping step and parses them back to the exact datetimes. -/
theorem c6_roundtrip (start_dt end_dt : PyDateTime) (hs : start_dt.valid) (he : end_dt.valid)
    (durC : ℕ) (uf : ℚ) (streakC appC actC distC occC appOccC : ℕ) :
    to_dt fromisoformatModel
        (some (Json.str (generate_session start_dt end_dt durC uf streakC appC actC distC occC appOccC).sessionStart)) =
      some start_dt ∧
    to_dt fromisoformatModel
        (some (Json.str (generate_session start_dt end_dt durC uf streakC appC actC distC occC appOccC).sessionEnd)) =
      some end_dt ∧
    pyReplaceZ (generate_session start_dt end_dt durC uf streakC appC actC distC occC appOccC).sessionStart =
      (generate_session start_dt end_dt durC uf streakC appC actC distC occC appOccC).sessionStart ∧
    pyReplaceZ (generate_session start_dt end_dt durC uf streakC appC actC distC occC appOccC).sessionEnd =
      (generate_session start_dt end_dt durC uf streakC appC actC distC occC appOccC).sessionEnd := by
  have hstart : (generate_session start_dt end_dt durC uf streakC appC actC distC occC appOccC).sessionStart =
      isoformatStr start_dt := by
    simp only [generate_session]
  have hend : (generate_session start_dt end_dt durC uf streakC appC actC distC occC appOccC).sessionEnd =
      isoformatStr end_dt := by
    simp only [generate_session]
  have hnoop : ∀ d : PyDateTime, pyReplaceZ (isoformatStr d) = isoformatStr d := by
    intro d
    unfold pyReplaceZ isoformatStr
    rw [removeZL_eq_self (isoformatL d) (isoformat_no_Z d)]
  have hparse : ∀ d : PyDateTime, d.valid →
      to_dt fromisoformatModel (some (Json.str (isoformatStr d))) = some d := by
    intro d hd
    rw [to_dt, hnoop d]
    unfold fromisoformatModel isoformatStr
    exact fromisoformat_isoformat d hd
  rw [hstart, hend]
  exact ⟨hparse start_dt hs, hparse end_dt he, hnoop start_dt, hnoop end_dt⟩

/-- Witness for C6 at a concrete input. -/
theorem c6_roundtrip_witness :
    d0.valid ∧
    to_dt fromisoformatModel
        (some (Json.str (generate_session d0 d0 0 (1 / 10) 0 0 0 0 0 0).sessionStart)) =
      some d0 :=
  ⟨d0_valid, (c6_roundtrip d0 d0 d0_valid d0_valid 0 (1 / 10) 0 0 0 0 0 0).1⟩

/-- C10: `to_dt` is total and returns null on a missing key (`None`) and on
every non-string value; the normalization pass keeps every loaded record. -/
theorem c10_to_dt_total (parseIso : String → Option PyDateTime) (x : Option Json)
    (hx : ∀ s, x ≠ some (Json.str s)) :
    to_dt parseIso x = none ∧
    ∀ records : List (List (String × Json)),
      (normalizeRecords parseIso records).map NormRecord.raw = records := by
  constructor
  · match x with
    | none => rfl
    | some Json.null => rfl
    | some (Json.boolean b) => rfl
    | some (Json.num q) => rfl
    | some (Json.str s) => exact absurd rfl (hx s)
    | some (Json.arr l) => rfl
    | some (Json.obj kvs) => rfl
  · intro records
    unfold normalizeRecords
    rw [List.map_map]
    exact List.map_id'' (fun r => rfl) records

/-- Witness for C10 at a concrete input. -/
theorem c10_to_dt_total_witness :
    to_dt fromisoformatModel (some (Json.num 3)) = none ∧
    (normalizeRecords fromisoformatModel [[("a", Json.null)]]).map NormRecord.raw =
      [[("a", Json.null)]] :=
  ⟨(c10_to_dt_total fromisoformatModel (some (Json.num 3)) (fun s => by simp)).1,
   (c10_to_dt_total fromisoformatModel (some (Json.num 3)) (fun s => by simp)).2
     [[("a", Json.null)]]⟩

theorem rowLe_trans (a b c : Row) (h1 : rowLe a b = true) (h2 : rowLe b c = true) :
    rowLe a c = true := by
  simp only [rowLe, decide_eq_true_eq] at h1 h2 ⊢
  omega

theorem rowLe_total (a b : Row) : rowLe a b || rowLe b a := by
  simp only [rowLe, Bool.or_eq_true, decide_eq_true_eq]
  omega

theorem longest_agg_append (rows : List Row) (r : Row) :
    longest_agg (rows ++ [r]) =
      some ((longest_agg rows).elim (Row.longestUnfocusedStreakSec r)
        (fun q => max q (Row.longestUnfocusedStreakSec r))) := by
  unfold longest_agg
  rw [List.foldl_append]
  generalize List.foldl
      (fun acc r =>
        some (match acc with
              | none => Row.longestUnfocusedStreakSec r
              | some q => max q (Row.longestUnfocusedStreakSec r)))
      none rows = a
  cases a <;> rfl

/-- C7: the time-series view holds exactly the rows with a non-null derived
session-end timestamp, sorted ascending by that timestamp, each assigned
`focusPct = (1 - totalUnfocusedSec/totalDurationSec) * 100`; a row with a
null derived timestamp is excluded from this view only, while still counted
in the top-level aggregates (sessions, total time, the focus-ratio sums, and
the longest-streak maximum). -/
theorem c7_time_series (rows : List Row) (r : Row) (hr : Row.sessionEnd_dt r = none) :
    (df_ts rows).Perm (rows.filter (fun x => (Row.sessionEnd_dt x).isSome)) ∧
    (df_ts rows).Pairwise
      (fun a b => dtKeyOpt (Row.sessionEnd_dt a) ≤ dtKeyOpt (Row.sessionEnd_dt b)) ∧
    (∀ p ∈ df_ts_view rows,
        p.2 = (1 - Row.totalUnfocusedSec p.1 / Row.totalDurationSec p.1) * 100) ∧
    df_ts (rows ++ [r]) = df_ts rows ∧
    total_sessions (rows ++ [r]) = total_sessions rows + 1 ∧
    total_hours (rows ++ [r]) = total_hours rows + Row.totalDurationSec r / 3600 ∧
    sumDuration (rows ++ [r]) = sumDuration rows + Row.totalDurationSec r ∧
    sumUnfocused (rows ++ [r]) = sumUnfocused rows + Row.totalUnfocusedSec r ∧
    longest_agg (rows ++ [r]) =
      some ((longest_agg rows).elim (Row.longestUnfocusedStreakSec r)
        (fun q => max q (Row.longestUnfocusedStreakSec r))) := by
  refine ⟨?_, ?_, ?_, ?_, ?_, ?_, ?_, ?_, longest_agg_append rows r⟩
  · exact List.mergeSort_perm _ rowLe
  · have hp := List.sorted_mergeSort rowLe_trans rowLe_total
      (rows.filter (fun x => (Row.sessionEnd_dt x).isSome))
    refine List.Pairwise.imp ?_ hp
    intro a b hab
    simpa [rowLe] using hab
  · intro p hp
    simp only [df_ts_view, List.mem_map] at hp
    obtain ⟨x, hx, rfl⟩ := hp
    rfl
  · unfold df_ts
    rw [List.filter_append]
    simp [hr]
  · simp [total_sessions]
  · simp [total_hours, sumDuration, add_div]
  · simp [sumDuration]
  · simp [sumUnfocused]

/-- Witness for C7 at a concrete input. -/
theorem c7_time_series_witness :
    Row.sessionEnd_dt (⟨0, 0, 0, none, none, none⟩ : Row) = none ∧
    df_ts ([] ++ [(⟨0, 0, 0, none, none, none⟩ : Row)]) = df_ts [] ∧
    total_sessions ([] ++ [(⟨0, 0, 0, none, none, none⟩ : Row)]) = total_sessions [] + 1 :=
  ⟨rfl, (c7_time_series [] ⟨0, 0, 0, none, none, none⟩ rfl).2.2.2.1,
   (c7_time_series [] ⟨0, 0, 0, none, none, none⟩ rfl).2.2.2.2.1⟩

theorem extractDistraction_none (x : Option Json)
    (hx : x = none ∨ ∃ v, x = some v ∧ Json.isObj v = false) :
    extractDistraction x = none := by
  rcases hx with rfl | ⟨v, rfl, hv⟩
  · rfl
  · cases v with
    | null => rfl
    | boolean b => rfl
    | num q => rfl
    | str s => rfl
    | arr l => rfl
    | obj kvs => simp [Json.isObj] at hv

/-- C8: a record whose `mostCommonDistraction` is absent or a non-object
value contributes nothing to the distraction tally (per-distinct-value counts
and their top 8), yet is still counted in the total-sessions and total-time
aggregates. -/
theorem c8_distraction_exclusion (rows : List Row) (r : Row)
    (hr : Row.mostCommonDistraction r = none ∨
      ∃ v, Row.mostCommonDistraction r = some v ∧ Json.isObj v = false) :
    distractionValues (rows ++ [r]) = distractionValues rows ∧
    value_counts (distractionValues (rows ++ [r])) = value_counts (distractionValues rows) ∧
    top8 (distractionValues (rows ++ [r])) = top8 (distractionValues rows) ∧
    (∀ pr ∈ value_counts (distractionValues rows),
        pr.2 = countJ pr.1 (distractionValues rows)) ∧
    total_sessions (rows ++ [r]) = total_sessions rows + 1 ∧
    total_hours (rows ++ [r]) = total_hours rows + Row.totalDurationSec r / 3600 := by
  have hkey : distractionValues (rows ++ [r]) = distractionValues rows := by
    unfold distractionValues
    rw [List.filterMap_append]
    simp [extractDistraction_none (Row.mostCommonDistraction r) hr]
  refine ⟨hkey, by rw [hkey], by unfold top8; rw [hkey], ?_, by simp [total_sessions],
    by simp [total_hours, sumDuration, add_div]⟩
  intro pr hpr
  unfold value_counts at hpr
  rw [List.mem_mergeSort, List.mem_map] at hpr
  obtain ⟨v, hv, rfl⟩ := hpr
  rfl

/-- Witness for C8 at a concrete input. -/
theorem c8_distraction_exclusion_witness :
    (Row.mostCommonDistraction (⟨900, 45, 0, none, some (Json.str "x"), none⟩ : Row) = none ∨
      ∃ v, Row.mostCommonDistraction (⟨900, 45, 0, none, some (Json.str "x"), none⟩ : Row) =
        some v ∧ Json.isObj v = false) ∧
    distractionValues ([] ++ [(⟨900, 45, 0, none, some (Json.str "x"), none⟩ : Row)]) =
      distractionValues [] ∧
    total_sessions ([] ++ [(⟨900, 45, 0, none, some (Json.str "x"), none⟩ : Row)]) =
      total_sessions [] + 1 :=
  ⟨Or.inr ⟨Json.str "x", rfl, rfl⟩,
   (c8_distraction_exclusion [] ⟨900, 45, 0, none, some (Json.str "x"), none⟩
     (Or.inr ⟨Json.str "x", rfl, rfl⟩)).1,
   (c8_distraction_exclusion [] ⟨900, 45, 0, none, some (Json.str "x"), none⟩
     (Or.inr ⟨Json.str "x", rfl, rfl⟩)).2.2.2.2.1⟩

/-- The DataFrame row a generated record becomes after serialization to a log
line, reload, and normalization (numeric fields as numbers, derived end
timestamp, raw breakdown objects). -/
def GenRecord.toRow (g : GenRecord) : Row :=
  ⟨(g.totalDurationSec : ℚ), (g.totalUnfocusedSec : ℚ), (g.longestUnfocusedStreakSec : ℚ),
   to_dt fromisoformatModel (some (Json.str g.sessionEnd)),
   some (Json.obj [("activity", Json.str g.mostCommonDistraction.1),
                   ("occurrences", Json.num (g.mostCommonDistraction.2 : ℚ))]),
   some (Json.obj [("app", Json.str g.mostUsedAppActivity.1),
                   ("activity", Json.str g.mostUsedAppActivity.2.1),
                   ("occurrences", Json.num (g.mostUsedAppActivity.2.2 : ℚ))])⟩

/-- A row produced by some run of `generate_session`, for any unfocused
fraction `random.uniform(0.05, 0.45)` can return. -/
def IsGenRow (row : Row) : Prop :=
  ∃ (start_dt end_dt : PyDateTime) (durC : ℕ) (uf : ℚ)
    (streakC appC actC distC occC appOccC : ℕ),
    1 / 20 ≤ uf ∧ uf ≤ 9 / 20 ∧
    row = GenRecord.toRow (generate_session start_dt end_dt durC uf streakC appC actC distC occC appOccC)

theorem genRow_bounds (row : Row) (h : IsGenRow row) :
    ∃ k : ℕ, Row.totalDurationSec row = 60 * (k : ℚ) ∧
      (900 : ℚ) ≤ Row.totalDurationSec row ∧ Row.totalDurationSec row ≤ 3600 ∧
      (45 : ℚ) ≤ Row.totalUnfocusedSec row := by
  obtain ⟨sd, ed, durC, uf, sC, aC, acC, dC, oC, aoC, h1, h2, rfl⟩ := h
  have hm := randint_le 15 60 durC (by norm_num)
  have hu := unfocused_bounds (randint 15 60 durC * 60) (by omega) (by omega) uf h1 h2
  refine ⟨randint 15 60 durC, ?_, ?_, ?_, ?_⟩
  · simp only [GenRecord.toRow, generate_session]
    push_cast
    ring
  · simp only [GenRecord.toRow, generate_session]
    exact_mod_cast (by omega : 900 ≤ randint 15 60 durC * 60)
  · simp only [GenRecord.toRow, generate_session]
    exact_mod_cast (by omega : randint 15 60 durC * 60 ≤ 3600)
  · simp only [GenRecord.toRow, generate_session]
    exact_mod_cast hu.1

/-- C9: every generated record's `totalDurationSec` is a positive multiple of
60 in `[900, 3600]` and its `totalUnfocusedSec` is at least 45, hence
positive; so over any nonempty list of generator rows the average-focus
aggregate takes its division branch (denominator positive, the zero guard
never fires) and the unguarded per-row `focusPct` division never has a zero
denominator. -/
theorem c9_no_division_by_zero (rows : List Row) (hne : rows ≠ [])
    (hgen : ∀ row ∈ rows, IsGenRow row) :
    (∀ row ∈ rows, ∃ k : ℕ, Row.totalDurationSec row = 60 * (k : ℚ) ∧
        (900 : ℚ) ≤ Row.totalDurationSec row ∧ Row.totalDurationSec row ≤ 3600 ∧
        (45 : ℚ) ≤ Row.totalUnfocusedSec row) ∧
    0 < sumDuration rows ∧
    avg_focus rows = 1 - sumUnfocused rows / sumDuration rows ∧
    (∀ row ∈ rows, Row.totalDurationSec row ≠ 0) := by
  have hrows : ∀ row ∈ rows, ∃ k : ℕ, Row.totalDurationSec row = 60 * (k : ℚ) ∧
      (900 : ℚ) ≤ Row.totalDurationSec row ∧ Row.totalDurationSec row ≤ 3600 ∧
      (45 : ℚ) ≤ Row.totalUnfocusedSec row :=
    fun row hrow => genRow_bounds row (hgen row hrow)
  have hpos : 0 < sumDuration rows := by
    unfold sumDuration
    refine List.sum_pos _ ?_ (by simpa using hne)
    intro x hx
    rw [List.mem_map] at hx
    obtain ⟨row, hrow, rfl⟩ := hx
    obtain ⟨k, _, h900, _, _⟩ := hrows row hrow
    linarith
  refine ⟨hrows, hpos, ?_, ?_⟩
  · unfold avg_focus
    rw [if_pos hpos]
  · intro row hrow
    obtain ⟨k, _, h900, _, _⟩ := hrows row hrow
    intro h0
    rw [h0] at h900
    norm_num at h900

/-- Witness for C9 at a concrete input. -/
theorem c9_no_division_by_zero_witness :
    ([GenRecord.toRow (generate_session d0 d0 0 (1 / 10) 0 0 0 0 0 0)] : List Row) ≠ [] ∧
    0 < sumDuration [GenRecord.toRow (generate_session d0 d0 0 (1 / 10) 0 0 0 0 0 0)] ∧
    avg_focus [GenRecord.toRow (generate_session d0 d0 0 (1 / 10) 0 0 0 0 0 0)] =
      1 - sumUnfocused [GenRecord.toRow (generate_session d0 d0 0 (1 / 10) 0 0 0 0 0 0)] /
        sumDuration [GenRecord.toRow (generate_session d0 d0 0 (1 / 10) 0 0 0 0 0 0)] := by
  have hgen : ∀ row ∈ ([GenRecord.toRow (generate_session d0 d0 0 (1 / 10) 0 0 0 0 0 0)] : List Row),
      IsGenRow row := by
    intro row hrow
    rw [List.mem_singleton] at hrow
    exact ⟨d0, d0, 0, 1 / 10, 0, 0, 0, 0, 0, 0, by norm_num, by norm_num, hrow⟩
  have h := c9_no_division_by_zero _ (by simp) hgen
  exact ⟨by simp, h.2.1, h.2.2.1⟩

/-- Witness for the amended C5 theorem at a concrete input. -/
theorem c5_normalize_replace_all_witness :
    fromisoformatModel (pyReplaceZ "not a date") = none ∧
    to_dt fromisoformatModel (some (Json.str "not a date")) = none :=
  ⟨by decide, c5_normalize_replace_all.2.1 fromisoformatModel "not a date" (by decide)⟩
